import Mathlib

/-!
Shallow embedding of `components/plugins/renderer/loadable_plugin_placeholder.cc`
(class `plugins::LoadablePluginPlaceholder`).

The placeholder is modelled as a record `Gate` of the member variables of the
class together with the relevant state inherited from `PluginPlaceholderBase`
(whether `plugin()` is non-null, whether `hidden()` holds, whether
`plugin()->container()` is non-null).  Each member function becomes a Lean
function `Gate → ... → Gate × List Effect`: the returned list records, in
program order, the calls the function makes into the host engine (script
execution, metric recording, container operations, ...) as well as failed
`DCHECK`/`CHECK`/`NOTREACHED` assertions (`Effect.fatalAssert`).

The plugin-swap procedure `ReplacePlugin` manipulates host-owned objects
(container, elements, web plugins) whose liveness can change under it; it is
embedded separately over an environment record `ReplaceEnv` that fixes the
answers the host gives at each re-validation point, producing a trace of
container operations.
-/

namespace Plugins

/-- The unthrottle methods of `content::PluginInstanceThrottler` that the file
uses (the enum itself lives outside this file; only the constructors referenced
by the code are modelled). -/
inductive UnthrottleMethod where
  | doNotRecord
  | byClick
  | bySizeChange
  | byWhitelist
  | never
  deriving DecidableEq, Repr

/-- The peripheral-content classification returned by
`RenderFrame::GetPeripheralContentStatus`.  The enum lives outside this file;
the code only distinguishes `CONTENT_STATUS_PERIPHERAL` and
`CONTENT_STATUS_ESSENTIAL_CROSS_ORIGIN_BIG`, so all other (non-peripheral)
statuses are collapsed into one constructor. -/
inductive PeripheralContentStatus where
  | peripheral
  | essentialCrossOriginBig
  | notPeripheralOther
  deriving DecidableEq, Repr

/-- A rectangle, standing in for `gfx::Rect`.  Only equality of rectangles is
observed by the embedded code (the zoom-adjusted coordinate arithmetic feeds
host calls that are abstracted as effects). -/
structure Rect where
  x : Int
  y : Int
  w : Int
  h : Int
  deriving DecidableEq, Repr

/-- Calls made into the host engine, plus assertion failures, recorded in
program order. -/
inductive Effect where
  | registerPeripheralPlugin
  | premadeMarkEssential (method : UnthrottleMethod)
  | recordMetric (method : UnthrottleMethod)
  | fatalAssert
  | classify (status : PeripheralContentStatus)
  | onLoadedRectUpdate (status : PeripheralContentStatus)
  | resizePosterScript (r : Rect)
  | markEssentialCall (method : UnthrottleMethod)
  | whitelistContentOrigin
  | loadPluginCall
  | setHiddenForPlaceholder (hidden : Bool)
  | replacePluginPremade
  | replacePluginCreated
  | destroyPremadeWebPlugin
  | setMessageScript (message : String)
  | reportGeometry
  | recordAction (action : String)
  | basePluginDestroyed
  deriving DecidableEq, Repr

/-- The state of one `LoadablePluginPlaceholder`.  The first nine Boolean
fields and `message`/`identifier`/`unobscured_rect` are the member variables of
the class (`premade_throttler_` is modelled by its nullness, which is all the
gating logic observes).  `pluginExists`, `hidden` and `containerExists` model
the base-class accessors `plugin()`, `hidden()` and `plugin()->container()`
that the file reads but does not define. -/
structure Gate where
  is_delayed_placeholder : Bool
  is_blocked_for_background_tab : Bool
  is_blocked_for_prerendering : Bool
  is_blocked_for_power_saver_poster : Bool
  power_saver_enabled : Bool
  premade_throttler : Bool
  allow_loading : Bool
  finished_loading : Bool
  heuristic_run_before : Bool
  message : String
  identifier : String
  unobscured_rect : Rect
  pluginExists : Bool
  hidden : Bool
  containerExists : Bool
  deriving DecidableEq, Repr

/-- The constructor (lines 57-72).  The initializer list runs in member order:
`premade_throttler_(nullptr)` is evaluated before
`heuristic_run_before_(premade_throttler_ != nullptr)`, which therefore reads
the just-initialized null value.  The `let` mirrors that sequencing.
`pluginExists`, `hidden` and `containerExists` belong to the base class and are
taken as parameters; `message_`, `identifier_` and `unobscured_rect_` are
default-constructed. -/
def construct (pluginExists hidden containerExists : Bool) : Gate :=
  let premade_throttler : Bool := false
  { is_delayed_placeholder := false
    is_blocked_for_background_tab := false
    is_blocked_for_prerendering := false
    is_blocked_for_power_saver_poster := false
    power_saver_enabled := false
    premade_throttler := premade_throttler
    allow_loading := false
    finished_loading := false
    heuristic_run_before := premade_throttler
    message := ""
    identifier := ""
    unobscured_rect := ⟨0, 0, 0, 0⟩
    pluginExists := pluginExists
    hidden := hidden
    containerExists := containerExists }

/-- `SetPremadePlugin` (lines 50-55): `DCHECK(throttler)` holds by construction
(the model only represents calls that pass a throttler); `DCHECK(!premade_throttler_)`
fails if a premade plugin is already set. -/
def SetPremadePlugin (g : Gate) : Gate × List Effect :=
  ({ g with premade_throttler := true },
   if g.premade_throttler then [Effect.fatalAssert] else [])

/-- `BlockForPowerSaverPoster` (lines 39-48): `DCHECK(!is_blocked_for_power_saver_poster_)`,
set the poster blocker, register the peripheral-plugin callback with the host. -/
def BlockForPowerSaverPoster (g : Gate) : Gate × List Effect :=
  ({ g with is_blocked_for_power_saver_poster := true },
   (if g.is_blocked_for_power_saver_poster then [Effect.fatalAssert] else []) ++
     [Effect.registerPeripheralPlugin])

/-- `LoadingBlocked` (lines 358-362): returns whether any blocker is set;
`DCHECK(allow_loading_)` fails when loading has not been allowed yet. -/
def LoadingBlocked (g : Gate) : Bool × List Effect :=
  ((g.is_blocked_for_background_tab || g.is_blocked_for_power_saver_poster ||
      g.is_blocked_for_prerendering),
   if g.allow_loading then [] else [Effect.fatalAssert])

/-- `LoadPlugin` (lines 277-296).  Early-outs: `hidden()`, `!plugin()`; then
`NOTREACHED()` if `!allow_loading_`.  Otherwise the swap: with a premade
throttler, unhide it, swap its web plugin in and null the field; without one,
swap in `CreatePlugin()`.  `Effect.loadPluginCall` records the invocation
itself; the swap is abstracted as a `replacePlugin*` effect (its internals are
embedded separately as `ReplacePlugin`). -/
def LoadPlugin (g : Gate) : Gate × List Effect :=
  if g.hidden then (g, [Effect.loadPluginCall])
  else if !g.pluginExists then (g, [Effect.loadPluginCall])
  else if !g.allow_loading then (g, [Effect.loadPluginCall, Effect.fatalAssert])
  else if g.premade_throttler then
    ({ g with premade_throttler := false },
     [Effect.loadPluginCall, Effect.setHiddenForPlaceholder false,
      Effect.replacePluginPremade])
  else (g, [Effect.loadPluginCall, Effect.replacePluginCreated])

/-- `MarkPluginEssential` (lines 82-99): no-op when power saver is off;
otherwise turn power saver off, delegate to the premade throttler when present,
else record the metric unless the method is the do-not-record sentinel; then,
if the poster blocker was set, clear it and load if nothing else blocks. -/
def MarkPluginEssential (g : Gate) (method : UnthrottleMethod) :
    Gate × List Effect :=
  if !g.power_saver_enabled then (g, [])
  else
    let g1 := { g with power_saver_enabled := false }
    let es1 :=
      if g1.premade_throttler then [Effect.premadeMarkEssential method]
      else if method ≠ UnthrottleMethod.doNotRecord then
        [Effect.recordMetric method]
      else []
    if g1.is_blocked_for_power_saver_poster then
      let g2 := { g1 with is_blocked_for_power_saver_poster := false }
      let lb := LoadingBlocked g2
      if !lb.1 then
        let lp := LoadPlugin g2
        (lp.1, es1 ++ lb.2 ++ lp.2)
      else (g2, es1 ++ lb.2)
    else (g1, es1)

/-- `SetMessage` (lines 147-151): store the message; apply it immediately only
when the placeholder has finished loading. -/
def UpdateMessage (g : Gate) : List Effect :=
  if !g.pluginExists then [] else [Effect.setMessageScript g.message]

/-- `SetMessage` (lines 147-151). -/
def SetMessage (g : Gate) (message : String) : Gate × List Effect :=
  let g1 := { g with message := message }
  if g1.finished_loading then (g1, UpdateMessage g1) else (g1, [])

/-- `PluginDestroyed` (lines 162-180): only while power saver is still enabled,
destroy a held premade plugin's web plugin (and null the field), or, with no
throttler but the poster blocker set, record the NEVER metric; then disable
power saver.  Finally delegate to the base class. -/
def PluginDestroyed (g : Gate) : Gate × List Effect :=
  if g.power_saver_enabled then
    if g.premade_throttler then
      ({ g with premade_throttler := false, power_saver_enabled := false },
       [Effect.destroyPremadeWebPlugin, Effect.basePluginDestroyed])
    else if g.is_blocked_for_power_saver_poster then
      ({ g with power_saver_enabled := false },
       [Effect.recordMetric UnthrottleMethod.never, Effect.basePluginDestroyed])
    else
      ({ g with power_saver_enabled := false }, [Effect.basePluginDestroyed])
  else (g, [Effect.basePluginDestroyed])

/-- `OnUnobscuredRectUpdate` (lines 191-247).  Early-outs when the plugin is
gone, the placeholder has not finished loading, or the rect is unchanged.
Otherwise cache the rect, query the classifier (the status is an oracle input
`status`, recorded as `Effect.classify`), and either delegate for a delayed
placeholder, or — only while the poster blocker is set — resize the poster,
mark essential when not peripheral (do-not-record sentinel on the first run,
size-change reason after), allow-list the origin on a first-run
cross-origin-big result, and finally set `heuristic_run_before_`. -/
def OnUnobscuredRectUpdate (g : Gate) (rect : Rect)
    (status : PeripheralContentStatus) : Gate × List Effect :=
  if !g.pluginExists || !g.finished_loading then (g, [])
  else if g.unobscured_rect = rect then (g, [])
  else
    let g1 := { g with unobscured_rect := rect }
    let es0 := [Effect.classify status]
    if g1.is_delayed_placeholder then
      ({ g1 with is_delayed_placeholder := false },
       es0 ++ [Effect.onLoadedRectUpdate status])
    else if g1.is_blocked_for_power_saver_poster then
      let es1 := [Effect.resizePosterScript rect]
      let step :=
        if status ≠ PeripheralContentStatus.peripheral then
          let method :=
            if g1.heuristic_run_before then UnthrottleMethod.bySizeChange
            else UnthrottleMethod.doNotRecord
          let me := MarkPluginEssential g1 method
          let esw :=
            if !g1.heuristic_run_before ∧
                status = PeripheralContentStatus.essentialCrossOriginBig then
              [Effect.whitelistContentOrigin]
            else []
          (me.1, Effect.markEssentialCall method :: (me.2 ++ esw))
        else (g1, ([] : List Effect))
      ({ step.1 with heuristic_run_before := true }, es0 ++ es1 ++ step.2)
    else (g1, es0)

/-- `WasShown` (lines 249-255): clear the background-tab blocker and load if
nothing else blocks. -/
def WasShown (g : Gate) : Gate × List Effect :=
  if g.is_blocked_for_background_tab then
    let g1 := { g with is_blocked_for_background_tab := false }
    let lb := LoadingBlocked g1
    if !lb.1 then
      let lp := LoadPlugin g1
      (lp.1, lb.2 ++ lp.2)
    else (g1, lb.2)
  else (g, [])

/-- `OnLoadBlockedPlugins` (lines 257-264): ignore broadcasts targeted at a
different identifier; otherwise record the user action and load
unconditionally. -/
def OnLoadBlockedPlugins (g : Gate) (ident : String) : Gate × List Effect :=
  if ident ≠ "" ∧ ident ≠ g.identifier then (g, [])
  else
    let lp := LoadPlugin g
    (lp.1, Effect.recordAction "Plugin_Load_UI" :: lp.2)

/-- `OnSetIsPrerendering` (lines 266-275): `DCHECK(!is_prerendering)` — a
placeholder must never observe prerendering being enabled; then clear the
prerendering blocker and load if nothing else blocks. -/
def OnSetIsPrerendering (g : Gate) (is_prerendering : Bool) :
    Gate × List Effect :=
  let dchk : List Effect := if is_prerendering then [Effect.fatalAssert] else []
  if g.is_blocked_for_prerendering then
    let g1 := { g with is_blocked_for_prerendering := false }
    let lb := LoadingBlocked g1
    if !lb.1 then
      let lp := LoadPlugin g1
      (lp.1, dchk ++ lb.2 ++ lp.2)
    else (g1, dchk ++ lb.2)
  else (g, dchk)

/-- `LoadCallback` (lines 298-304): record the click action, mark essential
with the click reason, then load unconditionally. -/
def LoadCallback (g : Gate) : Gate × List Effect :=
  let me := MarkPluginEssential g UnthrottleMethod.byClick
  let lp := LoadPlugin me.1
  (lp.1,
   Effect.recordAction "Plugin_Load_Click" ::
     Effect.markEssentialCall UnthrottleMethod.byClick :: (me.2 ++ lp.2))

/-- `DidFinishLoadingCallback` (lines 306-322): set `finished_loading_`, apply
a stored non-empty message, hide the premade plugin while power saver is on,
and re-request geometry (`CHECK(plugin()->container())` fails if the container
is gone). -/
def DidFinishLoadingCallback (g : Gate) : Gate × List Effect :=
  let g1 := { g with finished_loading := true }
  let es1 := if g1.message.length > 0 then UpdateMessage g1 else []
  let es2 :=
    if g1.premade_throttler ∧ g1.power_saver_enabled then
      [Effect.setHiddenForPlaceholder true]
    else []
  let es3 :=
    if g1.pluginExists then
      if g1.containerExists then [Effect.reportGeometry] else [Effect.fatalAssert]
    else []
  (g1, es1 ++ es2 ++ es3)

/-- Container operations performed by the swap procedure `ReplacePlugin`,
recorded in program order. -/
inductive RPEffect where
  | destroyNew
  | setPluginNew
  | initAttempt
  | setPluginPlaceholder
  | destroyPlaceholder
  | restoreTitleText
  | invalidate
  | reportGeometry
  | replayReceivedData
  | fatalCheck
  deriving DecidableEq, Repr

/-- Host-side liveness answers observed by `ReplacePlugin` at each of its
re-validation points.  `pluginNeedsInit` stands for the computed
`!premade_throttler_ || new_plugin != premade_throttler_->GetWebPlugin()`;
`newPluginStillInContainer` is `new_plugin->container()` after a failed
`initialize`; `elementStillHasContainer` is `element.pluginContainer()` after a
(possibly skipped) successful initialization. -/
structure ReplaceEnv where
  placeholderPluginExists : Bool
  newPluginGiven : Bool
  containerExists : Bool
  pluginNeedsInit : Bool
  initOk : Bool
  newPluginStillInContainer : Bool
  elementStillHasContainer : Bool
  deriving DecidableEq, Repr

/-- `ReplacePlugin` (lines 101-145).  `CHECK(plugin())` aborts the process;
a null `new_plugin` returns; with the container gone the target is destroyed;
otherwise the target is installed, initialized when needed (on failure: if the
target still sits in a container, reinstall the placeholder and destroy the
target, else return), the placeholder is destroyed if its element lost its
container, and on full success title/invalidate/geometry/replay run before the
placeholder is destroyed. -/
def ReplacePlugin (env : ReplaceEnv) : List RPEffect :=
  if !env.placeholderPluginExists then [RPEffect.fatalCheck]
  else if !env.newPluginGiven then []
  else if !env.containerExists then [RPEffect.destroyNew]
  else if env.pluginNeedsInit ∧ !env.initOk then
    RPEffect.setPluginNew :: RPEffect.initAttempt ::
      (if env.newPluginStillInContainer then
        [RPEffect.setPluginPlaceholder, RPEffect.destroyNew]
      else [])
  else
    (RPEffect.setPluginNew ::
       (if env.pluginNeedsInit then [RPEffect.initAttempt] else [])) ++
      (if !env.elementStillHasContainer then [RPEffect.destroyPlaceholder]
       else
         [RPEffect.restoreTitleText, RPEffect.invalidate, RPEffect.reportGeometry,
          RPEffect.replayReceivedData, RPEffect.destroyPlaceholder])

/-- Claim C4: in `ReplacePlugin`, a missing container at entry destroys the
target and aborts; a failed first-time initialization with the target still in
a container reinstalls the placeholder and destroys the target; a failed
initialization with the target's container gone aborts with no further action;
and none of these paths (indeed no path with a live placeholder plugin) raises
a fatal error. -/
theorem C4_replace_plugin_failure_paths (env : ReplaceEnv)
    (hp : env.placeholderPluginExists = true) (hn : env.newPluginGiven = true) :
    (env.containerExists = false → ReplacePlugin env = [RPEffect.destroyNew]) ∧
    (env.containerExists = true ∧ env.pluginNeedsInit = true ∧
        env.initOk = false ∧ env.newPluginStillInContainer = true →
      ReplacePlugin env =
        [RPEffect.setPluginNew, RPEffect.initAttempt,
         RPEffect.setPluginPlaceholder, RPEffect.destroyNew]) ∧
    (env.containerExists = true ∧ env.pluginNeedsInit = true ∧
        env.initOk = false ∧ env.newPluginStillInContainer = false →
      ReplacePlugin env = [RPEffect.setPluginNew, RPEffect.initAttempt]) ∧
    RPEffect.fatalCheck ∉ ReplacePlugin env := by
  obtain ⟨a, b, c, d, e, f, h⟩ := env
  revert hp hn
  cases a <;> cases b <;> cases c <;> cases d <;> cases e <;> cases f <;>
    cases h <;> decide

theorem C4_replace_plugin_failure_paths_witness :
    (let env : ReplaceEnv :=
      { placeholderPluginExists := true, newPluginGiven := true
        containerExists := true, pluginNeedsInit := true, initOk := false
        newPluginStillInContainer := true, elementStillHasContainer := true }
     ReplacePlugin env =
        [RPEffect.setPluginNew, RPEffect.initAttempt,
         RPEffect.setPluginPlaceholder, RPEffect.destroyNew]) :=
  (C4_replace_plugin_failure_paths _ rfl rfl).2.1 ⟨rfl, rfl, rfl, rfl⟩

/-! Helper lemmas shared by the claim theorems. -/

theorem LoadPlugin_power_saver (g : Gate) :
    (LoadPlugin g).1.power_saver_enabled = g.power_saver_enabled := by
  cases hh : g.hidden <;> cases hp : g.pluginExists <;>
    cases ha : g.allow_loading <;> cases hm : g.premade_throttler <;>
      simp [LoadPlugin, hh, hp, ha, hm]

theorem MarkPluginEssential_power_saver (g : Gate) (m : UnthrottleMethod) :
    (MarkPluginEssential g m).1.power_saver_enabled = false := by
  cases he : g.power_saver_enabled
  · simp [MarkPluginEssential, he]
  · cases hb : g.is_blocked_for_power_saver_poster <;>
      cases hm : g.premade_throttler <;>
        cases hbg : g.is_blocked_for_background_tab <;>
          cases hpr : g.is_blocked_for_prerendering <;>
            simp [MarkPluginEssential, LoadingBlocked, he, hb, hm, hbg, hpr,
              LoadPlugin_power_saver]

theorem MarkPluginEssential_off (g : Gate) (m : UnthrottleMethod)
    (h : g.power_saver_enabled = false) : MarkPluginEssential g m = (g, []) := by
  simp [MarkPluginEssential, h]

theorem whitelist_not_mem_LoadPlugin (g : Gate) :
    Effect.whitelistContentOrigin ∉ (LoadPlugin g).2 := by
  cases hh : g.hidden <;> cases hp : g.pluginExists <;>
    cases ha : g.allow_loading <;> cases hm : g.premade_throttler <;>
      simp [LoadPlugin, hh, hp, ha, hm]

theorem whitelist_not_mem_MarkPluginEssential (g : Gate) (m : UnthrottleMethod) :
    Effect.whitelistContentOrigin ∉ (MarkPluginEssential g m).2 := by
  cases he : g.power_saver_enabled <;>
    cases hb : g.is_blocked_for_power_saver_poster <;>
      cases hm2 : g.premade_throttler <;>
        cases hbg : g.is_blocked_for_background_tab <;>
          cases hpr : g.is_blocked_for_prerendering <;>
            cases ha : g.allow_loading <;>
              simp [MarkPluginEssential, LoadingBlocked, he, hb, hm2, hbg, hpr,
                ha, whitelist_not_mem_LoadPlugin]

/-- Claim C1 (counterexample): the claim that any invocation of `LoadPlugin`
while at least one blocker remains set is a silent no-op is false: with the
background-tab blocker still set but loading allowed, the plugin present and
the placeholder not hidden, `LoadPlugin` performs the swap. -/
theorem C1_counterexample :
    (let g : Gate :=
      { construct true false true with
          allow_loading := true, is_blocked_for_background_tab := true }
     g.is_blocked_for_background_tab = true ∧
       (LoadPlugin g).2 = [Effect.loadPluginCall, Effect.replacePluginCreated] ∧
       Effect.replacePluginCreated ∈ (LoadPlugin g).2) := by
  decide

/-- Claim C1 (amended): `LoadPlugin` itself never consults the blocker set: it
performs the swap iff the placeholder is not hidden, its plugin element still
exists and `allow_loading_` is true, and its only fatal case is
`allow_loading_` still false.  The blockers-empty condition of the load
transition is enforced at the blocker-clearing call sites instead, e.g.
`WasShown` swaps iff the background-tab blocker was set, no other blocker
remains, and `LoadPlugin`'s own conditions hold. -/
theorem C1_amended_load_transition (g : Gate) :
    ((Effect.replacePluginPremade ∈ (LoadPlugin g).2 ∨
        Effect.replacePluginCreated ∈ (LoadPlugin g).2) ↔
      g.hidden = false ∧ g.pluginExists = true ∧ g.allow_loading = true) ∧
    (Effect.fatalAssert ∈ (LoadPlugin g).2 ↔
      g.hidden = false ∧ g.pluginExists = true ∧ g.allow_loading = false) ∧
    ((Effect.replacePluginPremade ∈ (WasShown g).2 ∨
        Effect.replacePluginCreated ∈ (WasShown g).2) ↔
      g.is_blocked_for_background_tab = true ∧
        g.is_blocked_for_power_saver_poster = false ∧
        g.is_blocked_for_prerendering = false ∧
        g.hidden = false ∧ g.pluginExists = true ∧ g.allow_loading = true) := by
  cases hbg : g.is_blocked_for_background_tab <;>
    cases hb : g.is_blocked_for_power_saver_poster <;>
      cases hpr : g.is_blocked_for_prerendering <;>
        cases hh : g.hidden <;> cases hp : g.pluginExists <;>
          cases ha : g.allow_loading <;> cases hm : g.premade_throttler <;>
            simp [LoadPlugin, WasShown, LoadingBlocked, hbg, hb, hpr, hh, hp,
              ha, hm]

/-- Claim C2: the constructor initializes `premade_throttler_` to null and only
afterwards seeds `heuristic_run_before_` from `premade_throttler_ != nullptr`,
and a premade plugin can only be supplied after construction via
`SetPremadePlugin` (which does not touch the flag) — so the seed is always
false, even for an instance that is supplied a premade plugin. -/
theorem C2_seed_always_false :
    (construct true false true).heuristic_run_before = false ∧
    (SetPremadePlugin (construct true false true)).1.premade_throttler = true ∧
    (SetPremadePlugin (construct true false true)).1.heuristic_run_before =
      false := by
  decide

/-- Claim C3 (counterexample): a size update that performs the
peripheral-content check with the power-saver-poster blocker clear leaves
`heuristic_run_before_` false, so the flag is not set after every check
regardless of which blockers are set. -/
theorem C3_counterexample :
    (let g : Gate := { construct true false true with finished_loading := true }
     g.is_blocked_for_power_saver_poster = false ∧
       g.heuristic_run_before = false ∧
       Effect.classify PeripheralContentStatus.notPeripheralOther ∈
         (OnUnobscuredRectUpdate g ⟨1, 2, 3, 4⟩
             PeripheralContentStatus.notPeripheralOther).2 ∧
       (OnUnobscuredRectUpdate g ⟨1, 2, 3, 4⟩
           PeripheralContentStatus.notPeripheralOther).1.heuristic_run_before =
         false) := by
  decide

/-- Claim C3 (amended): a size update that performs the peripheral-content
check sets `heuristic_run_before_` to true afterwards — regardless of the
classification result — only when the power-saver-poster blocker is set and
the delayed-placeholder path is not taken; with the poster blocker clear, or on
the delayed-placeholder path, the flag is left unchanged. -/
theorem C3_amended_heuristic_update (g : Gate) (rect : Rect)
    (s : PeripheralContentStatus) (hp : g.pluginExists = true)
    (hf : g.finished_loading = true) (hr : ¬ g.unobscured_rect = rect) :
    Effect.classify s ∈ (OnUnobscuredRectUpdate g rect s).2 ∧
    (g.is_delayed_placeholder = false ∧
        g.is_blocked_for_power_saver_poster = true →
      (OnUnobscuredRectUpdate g rect s).1.heuristic_run_before = true) ∧
    (g.is_blocked_for_power_saver_poster = false →
      (OnUnobscuredRectUpdate g rect s).1.heuristic_run_before =
        g.heuristic_run_before) ∧
    (g.is_delayed_placeholder = true →
      (OnUnobscuredRectUpdate g rect s).1.heuristic_run_before =
        g.heuristic_run_before) := by
  cases hd : g.is_delayed_placeholder <;>
    cases hb : g.is_blocked_for_power_saver_poster <;>
      cases s <;>
        simp [OnUnobscuredRectUpdate, hp, hf, hr, hd, hb]

theorem C3_amended_heuristic_update_witness :
    (let g : Gate :=
      { construct true false true with
          finished_loading := true, is_blocked_for_power_saver_poster := true }
     Effect.classify PeripheralContentStatus.peripheral ∈
        (OnUnobscuredRectUpdate g ⟨1, 2, 3, 4⟩
            PeripheralContentStatus.peripheral).2 ∧
      (g.is_delayed_placeholder = false ∧
          g.is_blocked_for_power_saver_poster = true →
        (OnUnobscuredRectUpdate g ⟨1, 2, 3, 4⟩
            PeripheralContentStatus.peripheral).1.heuristic_run_before = true) ∧
      (g.is_blocked_for_power_saver_poster = false →
        (OnUnobscuredRectUpdate g ⟨1, 2, 3, 4⟩
            PeripheralContentStatus.peripheral).1.heuristic_run_before =
          g.heuristic_run_before) ∧
      (g.is_delayed_placeholder = true →
        (OnUnobscuredRectUpdate g ⟨1, 2, 3, 4⟩
            PeripheralContentStatus.peripheral).1.heuristic_run_before =
          g.heuristic_run_before)) :=
  C3_amended_heuristic_update _ ⟨1, 2, 3, 4⟩ PeripheralContentStatus.peripheral
    rfl rfl (by decide)

/-- Claim C5 (counterexample): the claim that `PluginDestroyed` always destroys
and clears a still-held premade plugin is false: a placeholder that was given a
premade plugin while `power_saver_enabled_` is false keeps the handle, and no
destroy call is made, when the container is torn down. -/
theorem C5_counterexample :
    (let g : Gate := (SetPremadePlugin (construct true false true)).1
     g.premade_throttler = true ∧ g.power_saver_enabled = false ∧
       (PluginDestroyed g).1.premade_throttler = true ∧
       Effect.destroyPremadeWebPlugin ∉ (PluginDestroyed g).2) := by
  decide

/-- Claim C5 (amended): the premade plugin handle is consumed at most once:
when `LoadPlugin` transfers it into the container the field is cleared, and
`PluginDestroyed` destroys the held web plugin and clears the field only while
`power_saver_enabled_` is still true — with power saver already off it leaves
the handle in place and destroys nothing.  Once the field is cleared, no
operation references the premade handle again. -/
theorem C5_amended_premade_consumed_once (g g0 : Gate) (m : UnthrottleMethod)
    (hm : g.premade_throttler = true) (hm0 : g0.premade_throttler = false) :
    (g.hidden = false ∧ g.pluginExists = true ∧ g.allow_loading = true →
      (LoadPlugin g).1.premade_throttler = false ∧
        Effect.replacePluginPremade ∈ (LoadPlugin g).2) ∧
    (g.power_saver_enabled = true →
      (PluginDestroyed g).1.premade_throttler = false ∧
        Effect.destroyPremadeWebPlugin ∈ (PluginDestroyed g).2) ∧
    (g.power_saver_enabled = false →
      (PluginDestroyed g).1.premade_throttler = true ∧
        Effect.destroyPremadeWebPlugin ∉ (PluginDestroyed g).2) ∧
    (Effect.premadeMarkEssential m ∉ (MarkPluginEssential g0 m).2 ∧
      Effect.replacePluginPremade ∉ (LoadPlugin g0).2 ∧
      Effect.destroyPremadeWebPlugin ∉ (PluginDestroyed g0).2 ∧
      Effect.setHiddenForPlaceholder true ∉ (DidFinishLoadingCallback g0).2) := by
  refine ⟨?_, ?_, ?_, ?_, ?_, ?_, ?_⟩
  · rintro ⟨hh, hp, ha⟩
    simp [LoadPlugin, hh, hp, ha, hm]
  · intro he
    simp [PluginDestroyed, he, hm]
  · intro he
    simp [PluginDestroyed, he, hm]
  · cases he : g0.power_saver_enabled <;>
      cases hb : g0.is_blocked_for_power_saver_poster <;>
        cases hbg : g0.is_blocked_for_background_tab <;>
          cases hpr : g0.is_blocked_for_prerendering <;>
            cases hh : g0.hidden <;> cases hp : g0.pluginExists <;>
              cases ha : g0.allow_loading <;>
                simp [MarkPluginEssential, LoadingBlocked, LoadPlugin, he, hb,
                  hbg, hpr, hh, hp, ha, hm0]
  · cases hh : g0.hidden <;> cases hp : g0.pluginExists <;>
      cases ha : g0.allow_loading <;> simp [LoadPlugin, hh, hp, ha, hm0]
  · cases he : g0.power_saver_enabled <;>
      cases hb : g0.is_blocked_for_power_saver_poster <;>
        simp [PluginDestroyed, he, hb, hm0]
  · cases hp : g0.pluginExists <;> cases hc : g0.containerExists <;>
      simp [DidFinishLoadingCallback, UpdateMessage, hp, hc, hm0]

theorem C5_amended_premade_consumed_once_witness :
    (let g : Gate :=
      { (SetPremadePlugin (construct true false true)).1 with
          allow_loading := true, power_saver_enabled := true }
     let g0 : Gate := construct true false true
     (g.hidden = false ∧ g.pluginExists = true ∧ g.allow_loading = true →
        (LoadPlugin g).1.premade_throttler = false ∧
          Effect.replacePluginPremade ∈ (LoadPlugin g).2) ∧
      (g.power_saver_enabled = true →
        (PluginDestroyed g).1.premade_throttler = false ∧
          Effect.destroyPremadeWebPlugin ∈ (PluginDestroyed g).2) ∧
      (g.power_saver_enabled = false →
        (PluginDestroyed g).1.premade_throttler = true ∧
          Effect.destroyPremadeWebPlugin ∉ (PluginDestroyed g).2) ∧
      (Effect.premadeMarkEssential UnthrottleMethod.byClick ∉
          (MarkPluginEssential g0 UnthrottleMethod.byClick).2 ∧
        Effect.replacePluginPremade ∉ (LoadPlugin g0).2 ∧
        Effect.destroyPremadeWebPlugin ∉ (PluginDestroyed g0).2 ∧
        Effect.setHiddenForPlaceholder true ∉
          (DidFinishLoadingCallback g0).2)) :=
  C5_amended_premade_consumed_once _ _ UnthrottleMethod.byClick rfl rfl

/-- Claim C6: `MarkPluginEssential` with `power_saver_enabled_` already false
is a complete no-op — state unchanged and no host call of any kind (no metric,
no throttler delegation, no blocker clearing, no load attempt) — and, since
any first call leaves power saver disabled, a second consecutive call is
always such a no-op, so it never records a second metric. -/
theorem C6_mark_essential_noop (g g0 : Gate) (m m2 : UnthrottleMethod)
    (h : g.power_saver_enabled = false) :
    MarkPluginEssential g m = (g, []) ∧
    MarkPluginEssential (MarkPluginEssential g0 m).1 m2 =
      ((MarkPluginEssential g0 m).1, []) := by
  exact ⟨MarkPluginEssential_off g m h,
    MarkPluginEssential_off _ m2 (MarkPluginEssential_power_saver g0 m)⟩

theorem C6_mark_essential_noop_witness :
    MarkPluginEssential (construct true false true) UnthrottleMethod.byClick =
        (construct true false true, []) ∧
      MarkPluginEssential
          (MarkPluginEssential (construct true false true)
              UnthrottleMethod.byClick).1 UnthrottleMethod.byClick =
        ((MarkPluginEssential (construct true false true)
            UnthrottleMethod.byClick).1, []) :=
  C6_mark_essential_noop (construct true false true) (construct true false true)
    UnthrottleMethod.byClick UnthrottleMethod.byClick rfl

/-- Claim C7: on a size update with the poster blocker set and a
non-peripheral classification, the plugin is marked essential with the
do-not-record sentinel on the very first heuristic evaluation
(`heuristic_run_before_` false) and with the size-change reason thereafter;
the content origin is allow-listed exactly when it is the first evaluation and
the classification is essential-cross-origin-large. -/
theorem C7_first_run_sentinel (g : Gate) (rect : Rect)
    (s : PeripheralContentStatus) (hp : g.pluginExists = true)
    (hf : g.finished_loading = true) (hr : ¬ g.unobscured_rect = rect)
    (hd : g.is_delayed_placeholder = false)
    (hb : g.is_blocked_for_power_saver_poster = true)
    (hs : ¬ s = PeripheralContentStatus.peripheral) :
    (Effect.markEssentialCall
        (if g.heuristic_run_before then UnthrottleMethod.bySizeChange
         else UnthrottleMethod.doNotRecord) ∈
      (OnUnobscuredRectUpdate g rect s).2) ∧
    (Effect.whitelistContentOrigin ∈ (OnUnobscuredRectUpdate g rect s).2 ↔
      g.heuristic_run_before = false ∧
        s = PeripheralContentStatus.essentialCrossOriginBig) := by
  cases hhr : g.heuristic_run_before <;> cases s <;>
    simp [OnUnobscuredRectUpdate, hp, hf, hr, hd, hb, hhr,
      whitelist_not_mem_MarkPluginEssential] at hs ⊢

theorem C7_first_run_sentinel_witness :
    (let g : Gate :=
      { construct true false true with
          finished_loading := true, is_blocked_for_power_saver_poster := true }
     (Effect.markEssentialCall
          (if g.heuristic_run_before then UnthrottleMethod.bySizeChange
           else UnthrottleMethod.doNotRecord) ∈
        (OnUnobscuredRectUpdate g ⟨1, 2, 3, 4⟩
            PeripheralContentStatus.essentialCrossOriginBig).2) ∧
      (Effect.whitelistContentOrigin ∈
          (OnUnobscuredRectUpdate g ⟨1, 2, 3, 4⟩
              PeripheralContentStatus.essentialCrossOriginBig).2 ↔
        g.heuristic_run_before = false ∧
          PeripheralContentStatus.essentialCrossOriginBig =
            PeripheralContentStatus.essentialCrossOriginBig)) :=
  C7_first_run_sentinel _ ⟨1, 2, 3, 4⟩
    PeripheralContentStatus.essentialCrossOriginBig rfl rfl (by decide) rfl rfl
    (by decide)

/-- Claim C8: receiving the prerendering notification with `is_prerendering`
true is a fatal assertion (a placeholder must only ever observe prerendering
ending); when the assertion passes and the prerendering blocker is set, the
blocker is cleared and the load transition is attempted exactly when no
blocker remains. -/
theorem C8_prerendering_gate (g : Gate)
    (hb : g.is_blocked_for_prerendering = true) (ha : g.allow_loading = true) :
    Effect.fatalAssert ∈ (OnSetIsPrerendering g true).2 ∧
    Effect.fatalAssert ∉ (OnSetIsPrerendering g false).2 ∧
    (OnSetIsPrerendering g false).1.is_blocked_for_prerendering = false ∧
    (Effect.loadPluginCall ∈ (OnSetIsPrerendering g false).2 ↔
      g.is_blocked_for_background_tab = false ∧
        g.is_blocked_for_power_saver_poster = false) := by
  cases hbg : g.is_blocked_for_background_tab <;>
    cases hps : g.is_blocked_for_power_saver_poster <;>
      cases hh : g.hidden <;> cases hp : g.pluginExists <;>
        cases hm : g.premade_throttler <;>
          simp [OnSetIsPrerendering, LoadingBlocked, LoadPlugin, hb, ha, hbg,
            hps, hh, hp, hm]

theorem C8_prerendering_gate_witness :
    (let g : Gate :=
      { construct true false true with
          is_blocked_for_prerendering := true, allow_loading := true }
     Effect.fatalAssert ∈ (OnSetIsPrerendering g true).2 ∧
       Effect.fatalAssert ∉ (OnSetIsPrerendering g false).2 ∧
       (OnSetIsPrerendering g false).1.is_blocked_for_prerendering = false ∧
       (Effect.loadPluginCall ∈ (OnSetIsPrerendering g false).2 ↔
         g.is_blocked_for_background_tab = false ∧
           g.is_blocked_for_power_saver_poster = false)) :=
  C8_prerendering_gate _ rfl rfl

/-- Claim C9: a status message is applied to the placeholder UI only once
`finished_loading_` is true: set earlier it is merely stored (no script runs),
and `DidFinishLoadingCallback` then applies the stored non-empty message; set
afterwards it is applied immediately. -/
theorem C9_message_deferred (g : Gate) (m : String)
    (hp : g.pluginExists = true) :
    (g.finished_loading = false →
      SetMessage g m = ({ g with message := m }, [])) ∧
    (g.finished_loading = true →
      (SetMessage g m).2 = [Effect.setMessageScript m]) ∧
    (g.message.length > 0 →
      Effect.setMessageScript g.message ∈ (DidFinishLoadingCallback g).2) ∧
    (DidFinishLoadingCallback g).1.finished_loading = true := by
  refine ⟨fun hf => ?_, fun hf => ?_, fun hlen => ?_, ?_⟩
  · simp [SetMessage, hf]
  · simp [SetMessage, UpdateMessage, hf, hp]
  · simp [DidFinishLoadingCallback, UpdateMessage, hp, hlen]
  · simp [DidFinishLoadingCallback]

theorem C9_message_deferred_witness :
    (let g : Gate := { construct true false true with message := "status" }
     (g.finished_loading = false →
        SetMessage g "hello" = ({ g with message := "hello" }, [])) ∧
      (g.finished_loading = true →
        (SetMessage g "hello").2 = [Effect.setMessageScript "hello"]) ∧
      (g.message.length > 0 →
        Effect.setMessageScript g.message ∈ (DidFinishLoadingCallback g).2) ∧
      (DidFinishLoadingCallback g).1.finished_loading = true) :=
  C9_message_deferred _ "hello" rfl

/-- Claim C10: a size update whose rect equals the cached unobscured rect, or
that arrives before the placeholder finished loading or after its plugin is
gone, changes no field of the gate and performs no host call — no
classification, essential-marking, allow-listing or script execution. -/
theorem C10_rect_update_noop (g : Gate) (rect : Rect)
    (s : PeripheralContentStatus)
    (h : g.unobscured_rect = rect ∨ g.finished_loading = false ∨
      g.pluginExists = false) :
    OnUnobscuredRectUpdate g rect s = (g, []) := by
  rcases h with h | h | h
  · cases hp : g.pluginExists <;> cases hf : g.finished_loading <;>
      simp [OnUnobscuredRectUpdate, h, hp, hf]
  · simp [OnUnobscuredRectUpdate, h]
  · simp [OnUnobscuredRectUpdate, h]

theorem C10_rect_update_noop_witness :
    OnUnobscuredRectUpdate (construct true false true) ⟨1, 2, 3, 4⟩
        PeripheralContentStatus.peripheral =
      (construct true false true, []) :=
  C10_rect_update_noop _ _ _ (Or.inr (Or.inl rfl))

end Plugins
